import Mathlib

/-!
# Identity-provider endpoints of `idp/main.go`

A shallow embedding of the HTTP handlers of the reference identity provider:
the response writer of `net/http` as an explicit state, the cookie session
store of `gorilla/sessions` as a symbolic codec, `encoding/json` marshalling
of the maps the handlers emit, and the handlers themselves as state
transformers on the response writer.
-/

namespace Idp

/-! ## JSON marshalling (`encoding/json`) -/

/-- Dynamic values handed to `jsonResponse` (Go `interface{}`). The program passes
`map[string]string`, `map[string]interface{}` and `[]map[string]string`;
`unsupported` stands for any value `json.Marshal` rejects (a channel, a function). -/
inductive Data where
  | str (s : String)
  | list (xs : List Data)
  | map (kvs : List (String × Data))
  | unsupported

/-- Lower-case hexadecimal digit of `n % 16`. -/
def hexDigit (n : Nat) : Char :=
  "0123456789abcdef".data.getD (n % 16) '0'

/-- Escape one character the way `encoding/json` writes it inside a string
literal with HTML escaping on (the default of `json.Marshal`). -/
def escapeChar (c : Char) : List Char :=
  let n := c.toNat
  if n = 34 then [Char.ofNat 92, Char.ofNat 34]
  else if n = 92 then [Char.ofNat 92, Char.ofNat 92]
  else if n = 10 then [Char.ofNat 92, 'n']
  else if n = 13 then [Char.ofNat 92, 'r']
  else if n = 9 then [Char.ofNat 92, 't']
  else if n < 32 ∨ n = 60 ∨ n = 62 ∨ n = 38 then
    [Char.ofNat 92, 'u', '0', '0', hexDigit (n / 16), hexDigit n]
  else if n = 8232 ∨ n = 8233 then
    [Char.ofNat 92, 'u', '2', '0', '2', hexDigit n]
  else [c]

/-- A JSON string literal: the escaped characters between double quotes. -/
def quote (s : String) : List Char :=
  Char.ofNat 34 :: (s.data.flatMap escapeChar ++ [Char.ofNat 34])

/-- Strict lexicographic order on character sequences by code point, which is the
byte order of their UTF-8 encodings (the order Go compares strings in). -/
def keyLess : List Char → List Char → Bool
  | _, [] => false
  | [], _ :: _ => true
  | a :: as, b :: bs =>
    if a.toNat < b.toNat then true
    else if b.toNat < a.toNat then false
    else keyLess as bs

/-- Insert a member into a key-sorted member list. -/
def insertKey (kv : String × Data) : List (String × Data) → List (String × Data)
  | [] => [kv]
  | x :: xs => if keyLess kv.1.data x.1.data then kv :: x :: xs else x :: insertKey kv xs

/-- Sort the members of an object by key: `encoding/json` writes map keys sorted. -/
def sortKeys (kvs : List (String × Data)) : List (String × Data) :=
  kvs.foldr insertKey []

mutual
/-- Text `json.Marshal` produces for a value whose maps are already key-sorted;
`none` is the marshalling error. -/
def encode : Data → Option (List Char)
  | .str s => some (quote s)
  | .list xs => (encodeList xs).map fun cs => '[' :: (cs ++ [']'])
  | .map kvs => (encodeFields kvs).map fun cs => Char.ofNat 123 :: (cs ++ [Char.ofNat 125])
  | .unsupported => none
/-- Elements of an array, comma separated. -/
def encodeList : List Data → Option (List Char)
  | [] => some []
  | [x] => encode x
  | x :: y :: rest =>
    match encode x, encodeList (y :: rest) with
    | some a, some b => some (a ++ ',' :: b)
    | _, _ => none
/-- Members of an object, comma separated, in the order given. -/
def encodeFields : List (String × Data) → Option (List Char)
  | [] => some []
  | [(k, v)] => (encode v).map fun cs => quote k ++ ':' :: cs
  | (k, v) :: y :: rest =>
    match encode v, encodeFields (y :: rest) with
    | some a, some b => some (quote k ++ ':' :: a ++ ',' :: b)
    | _, _ => none
end

mutual
/-- Put the members of every object of a value in key order. -/
def normalize : Data → Data
  | .str s => .str s
  | .list xs => .list (normalizeList xs)
  | .map kvs => .map (sortKeys (normalizeFields kvs))
  | .unsupported => .unsupported
/-- Normalize the elements of an array. -/
def normalizeList : List Data → List Data
  | [] => []
  | x :: xs => normalize x :: normalizeList xs
/-- Normalize the member values of an object. -/
def normalizeFields : List (String × Data) → List (String × Data)
  | [] => []
  | (k, v) :: rest => (k, normalize v) :: normalizeFields rest
end

/-- Model of `json.Marshal`: the encoded text, or `none` when the value cannot be
marshalled. -/
def Marshal (d : Data) : Option String :=
  (encode (normalize d)).map String.mk

/-! ## Session values -/

/-- Values stored in a session (`interface{}`): `nil` is what indexing an absent key
yields; strings are what the program stores; the other constructors stand for
values of another dynamic type. -/
inductive Value where
  | nil
  | str (s : String)
  | int (n : Int)
  | bool (b : Bool)
  deriving DecidableEq

/-! ## Response writer and request (`net/http`) -/

/-- Response header map together with the cookies set on it. `fields` is the
`map[string][]string` as a list of lines; `cookies` are the `Set-Cookie` lines, kept
decoded as (cookie name, session values) because the cookie codec is symbolic. Header
names are not canonicalised: every name the program uses is already canonical. -/
structure Header where
  fields : List (String × String)
  cookies : List (String × List (String × Value))

/-- Model of `Header.Get`: the first value of the key, the empty string when absent. -/
def Header.Get (h : Header) (key : String) : String :=
  match h.fields.find? (fun kv => kv.1 == key) with
  | some kv => kv.2
  | none => ""

/-- Model of `Header.Set`: the values of the key are replaced by the single value. -/
def Header.Set (h : Header) (key value : String) : Header :=
  { h with fields := h.fields.filter (fun kv => kv.1 != key) ++ [(key, value)] }

/-- State of an `http.ResponseWriter`. `header` is the live map handlers mutate,
`sent` the copy that went out with the status line, `writeHeaderCalls` every status
code passed to `WriteHeader`, in order (all but the first are superfluous and ignored
by the server). -/
structure ResponseWriter where
  header : Header
  wroteHeader : Bool
  status : Nat
  sent : Header
  body : String
  writeHeaderCalls : List Nat

/-- The writer a handler receives: nothing written yet. -/
def newResponseWriter : ResponseWriter :=
  { header := ⟨[], []⟩, wroteHeader := false, status := 0, sent := ⟨[], []⟩, body := "",
    writeHeaderCalls := [] }

/-- Model of `w.Header().Set(key, value)`. -/
def ResponseWriter.setHeader (w : ResponseWriter) (key value : String) : ResponseWriter :=
  { w with header := w.header.Set key value }

/-- Model of `w.WriteHeader(code)`: the first call fixes the status and sends the
current header map; later calls change nothing that is sent. -/
def ResponseWriter.WriteHeader (w : ResponseWriter) (code : Nat) : ResponseWriter :=
  if w.wroteHeader then
    { w with writeHeaderCalls := w.writeHeaderCalls ++ [code] }
  else
    { w with wroteHeader := true, status := code, sent := w.header,
             writeHeaderCalls := w.writeHeaderCalls ++ [code] }

/-- Model of `w.Write(p)`: an implicit `WriteHeader(200)` when no header has been
written, then the bytes are appended to the body. -/
def ResponseWriter.Write (w : ResponseWriter) (p : String) : ResponseWriter :=
  let w1 := if w.wroteHeader then w else w.WriteHeader 200
  { w1 with body := w1.body ++ p }

/-- Model of `http.Error(w, error, code)`: plain-text content type, the status, and
the message followed by a newline. It does not end the request. -/
def Error (w : ResponseWriter) (error : String) (code : Nat) : ResponseWriter :=
  let w1 := w.setHeader "Content-Type" "text/plain; charset=utf-8"
  let w2 := w1.setHeader "X-Content-Type-Options" "nosniff"
  let w3 := w2.WriteHeader code
  w3.Write (error ++ "\n")

/-- The credentials structure the sign-in body is decoded into. -/
structure Params where
  Username : String
  Password : String
  deriving DecidableEq

/-- What a handler can observe of an `*http.Request`. The outcomes of the library
parsers are part of the request: `Form` and `ParseFormErr` are what `r.ParseForm()`
leaves in `r.Form` and returns, `Body` is what decoding the JSON body into `Params`
yields (`none` is a decoding error), and `Cookies` are the cookies that authenticate
and decode under the key of the store, by name. -/
structure Request where
  Method : String
  Path : String
  Form : List (String × String)
  ParseFormErr : Bool
  Body : Option Params
  Cookies : List (String × List (String × Value))

/-- Model of `url.Values.Get`: first value of the key or the empty string. -/
def formGet (form : List (String × String)) (key : String) : String :=
  match form.find? (fun kv => kv.1 == key) with
  | some kv => kv.2
  | none => ""

/-- Model of `r.FormValue(key)`: parses the form if needed, ignores the parse
error and returns the first value of the key. -/
def Request.FormValue (r : Request) (key : String) : String :=
  formGet r.Form key

/-- A handler maps the writer state before the call to the state after it. -/
abbrev HandlerFunc := ResponseWriter → Request → ResponseWriter

/-! ## Cookie session store (`gorilla/sessions`) -/

/-- The cookie store. Its codec is symbolic; `encodeErr` tells for which values
encoding the cookie fails (for instance values too long for a cookie). -/
structure CookieStore where
  encodeErr : List (String × Value) → Bool

/-- A session: its cookie name and its value map. -/
structure Session where
  name : String
  Values : List (String × Value)

/-- Model of `store.Get(r, name)` with the error dropped: the values of the valid
cookie of that name on the request, or a new empty session. -/
def CookieStore.Get (_store : CookieStore) (r : Request) (name : String) : Session :=
  match r.Cookies.find? (fun c => c.1 == name) with
  | some c => { name := name, Values := c.2 }
  | none => { name := name, Values := [] }

/-- Model of `sess.Save(r, w)`: on an encoding error nothing is set and the error is
returned (`true`); otherwise a `Set-Cookie` line carrying the values is added. -/
def Session.Save (sess : Session) (store : CookieStore) (w : ResponseWriter) :
    ResponseWriter × Bool :=
  if store.encodeErr sess.Values then (w, true)
  else ({ w with header := { w.header with
            cookies := w.header.cookies ++ [(sess.name, sess.Values)] } }, false)

/-! ## Handlers of `idp/main.go` -/

/-- Model of `jsonResponse(w, d, c)`. -/
def jsonResponse (w : ResponseWriter) (d : Data) (c : Nat) : ResponseWriter :=
  let dj := Marshal d
  let w1 := if dj.isNone then Error w "Error creating JSON response" 500 else w
  let w2 := w1.setHeader "Content-Type" "application/json"
  let w3 := w2.WriteHeader c
  w3.Write (dj.getD "")

/-- A parsed template: the chunks `Execute` writes for the given data before it
returns, and whether it returns an error. -/
structure Template where
  Execute : Option Data → List String × Bool

/-- Model of `renderTemplate(w, templateFile, data)`; `parseFiles` is the outcome of
`template.ParseFiles` per file name (`none` is a parse error). -/
def renderTemplate (parseFiles : String → Option Template) (w : ResponseWriter)
    (templateFile : String) (data : Option Data) : ResponseWriter :=
  match parseFiles templateFile with
  | none => Error w "Template parsing error" 500
  | some tmpl =>
    let out := tmpl.Execute data
    let w1 := out.1.foldl ResponseWriter.Write w
    if out.2 then Error w1 "Template execution error" 500 else w1

/-- Model of `accountsHandler`. -/
def accountsHandler : HandlerFunc := fun w _r =>
  jsonResponse w
    (.map [("accounts", .list [.map [("id", .str "1234"), ("name", .str "John Doe"),
      ("email", .str "john_doe@idp.example")]])]) 200

/-- Model of `webIdentityHandler`. -/
def webIdentityHandler : HandlerFunc := fun w _r =>
  jsonResponse w (.map [("provider_urls", .str "http://localhost:8002/config.json")]) 200

/-- Model of `fedcmAssertionHandler`. -/
def fedcmAssertionHandler : HandlerFunc := fun w _r =>
  let w1 := w.setHeader "Access-Control-Allow-Origin" "http://localhost:8001"
  let w2 := w1.setHeader "Access-Control-Allow-Credentials" "true"
  let w3 := w2.setHeader "Access-Control-Allow-Methods" "GET, POST, PUT, DELETE, OPTIONS"
  jsonResponse w3 (.map [("token", .str "*****")]) 200

/-- The map literal `configJSONHandler` responds with. -/
def configDocument : List (String × Data) :=
  [("accounts_endpoint", .str "/accounts"),
   ("client_metadata_endpoint", .str "/metadata"),
   ("id_assertion_endpoint", .str "/fedcm_assertion_endpoint"),
   ("disconnect_endpoint", .str "/disconnect"),
   ("login_url", .str "/login")]

/-- Model of `configJSONHandler`. -/
def configJSONHandler : HandlerFunc := fun w _r =>
  jsonResponse w (.map configDocument) 200

/-- Model of `clientMetadataHandler`. -/
def clientMetadataHandler : HandlerFunc := fun w r =>
  let clientID := r.FormValue "client_id"
  if clientID != "123" then
    jsonResponse w (.map [("error", .str "invalid client_id.")]) 400
  else
    jsonResponse w
      (.map [("privacy_policy_url", .str "http://localhost:8001/privacy_policy.html"),
             ("terms_of_service_url", .str "http://localhost:8001/terms_of_service.html")]) 200

/-- Model of `loginHandler`. -/
def loginHandler (parseFiles : String → Option Template) : HandlerFunc := fun w _r =>
  renderTemplate parseFiles w "login.html" none

/-- Model of Go map assignment `m[key] = v` on session values. -/
def assign (m : List (String × Value)) (key : String) (v : Value) : List (String × Value) :=
  m.filter (fun kv => kv.1 != key) ++ [(key, v)]

/-- Model of Go map indexing `m[key]` on session values: `nil` when the key is absent. -/
def index (m : List (String × Value)) (key : String) : Value :=
  match m.find? (fun kv => kv.1 == key) with
  | some kv => kv.2
  | none => .nil

/-- Model of `signInHandler`. The method check has no `return`, so control continues
with the writer the 405 response was written to. -/
def signInHandler (store : CookieStore) : HandlerFunc := fun w r =>
  let w0 :=
    if r.Method != "POST" then
      jsonResponse w (.map [("error", .str "Method not allowed")]) 405
    else w
  if r.ParseFormErr then
    jsonResponse w0 (.map [("error", .str "Error parsing form")]) 400
  else
    match r.Body with
    | none => jsonResponse w0 (.map [("error", .str "Error decoding JSON")]) 400
    | some p =>
      if p.Username != "John" || p.Password != "password" then
        jsonResponse w0 (.map [("error", .str "username or password incorrect")]) 401
      else
        let sess := store.Get r "session"
        let sess1 := { sess with Values := assign sess.Values "username"
                                    (.str (formGet r.Form "username")) }
        let sess2 := { sess1 with Values := assign sess1.Values "status" (.str "logged-in") }
        let saved := sess2.Save store w0
        if saved.2 then
          jsonResponse saved.1 (.map [("error", .str "Error saving session")]) 500
        else
          let w1 := saved.1.setHeader "Set-Login" "logged-in"
          jsonResponse w1 (.map [("message", .str "success")]) 200

/-- Model of the type assertion `v.(string)` with the ok flag dropped: the string, or
the empty string when the value is not a string. -/
def Value.asString : Value → String
  | .str s => s
  | _ => ""

/-- Model of `sessionCheckMiddleware(next)`. -/
def sessionCheckMiddleware (store : CookieStore) (next : HandlerFunc) : HandlerFunc :=
  fun w r =>
    let sess := store.Get r "session"
    let v := index sess.Values "status"
    if v = Value.nil then
      jsonResponse w (.map [("error", .str "Unauthorized")]) 401
    else
      let vs := v.asString
      if vs != "logged-in" then
        jsonResponse w (.map [("error", .str "Unauthorized")]) 401
      else next w r

/-- The handler installed as `r.NotFoundHandler` in `main`. -/
def notFoundHandler : HandlerFunc := fun w _r =>
  Error w "Not found" 404

/-- A route registered on the router: path, accepted methods and handler. -/
structure Route where
  path : String
  methods : List String
  handler : HandlerFunc

/-- The routes `main` registers, in order. -/
def routes (store : CookieStore) (parseFiles : String → Option Template) : List Route :=
  [ ⟨"/login", ["GET"], loginHandler parseFiles⟩,
    ⟨"/signin", ["POST"], signInHandler store⟩,
    ⟨"/config.json", ["GET"], configJSONHandler⟩,
    ⟨"/fedcm_assertion_endpoint", ["POST"], sessionCheckMiddleware store fedcmAssertionHandler⟩,
    ⟨"/accounts", ["GET"], sessionCheckMiddleware store accountsHandler⟩,
    ⟨"/metadata", ["GET"], clientMetadataHandler⟩,
    ⟨"/.well-known/web-identity", ["GET"], webIdentityHandler⟩ ]

/-! ## Derived notions used to state the properties -/

/-- The `status` value of the session the store loads for a request: the value
`sessionCheckMiddleware` inspects. -/
def loadedStatus (store : CookieStore) (r : Request) : Value :=
  index (store.Get r "session").Values "status"

/-- The session values `signInHandler` hands to `Save` once the credentials have
been accepted. -/
def signInValues (store : CookieStore) (r : Request) : List (String × Value) :=
  assign (assign (store.Get r "session").Values "username"
    (.str (formGet r.Form "username"))) "status" (.str "logged-in")

/-- The writer `signInHandler` continues with after its method check: the one the 405
response was written to when the method is not POST, the given one otherwise. -/
def signInMethodCheck (w : ResponseWriter) (r : Request) : ResponseWriter :=
  if r.Method != "POST" then
    jsonResponse w (.map [("error", .str "Method not allowed")]) 405
  else w

/-- A cookie store whose encoding never fails. -/
def plainStore : CookieStore := ⟨fun _ => false⟩

/-- A template loader that finds no file. -/
def noTemplates : String → Option Template := fun _ => none

/-- Request `POST /signin?%` with the JSON body of the valid credentials: the query string
does not parse, the body does. -/
def signInBadQuery : Request :=
  ⟨"POST", "/signin", [], true, some ⟨"John", "password"⟩, []⟩

/-- Request `POST /signin` with the JSON body of the valid credentials and no form field. -/
def signInJSONOnly : Request :=
  ⟨"POST", "/signin", [], false, some ⟨"John", "password"⟩, []⟩

/-- Request `POST /signin?username=Mallory` with the JSON body of the valid credentials. -/
def signInOtherName : Request :=
  ⟨"POST", "/signin", [("username", "Mallory")], false, some ⟨"John", "password"⟩, []⟩

/-- Request `POST /signin` with the form-encoded body `username=John&password=password`:
`ParseForm` reads the body into the form, so the JSON decoder finds nothing to decode. -/
def signInFormEncoded : Request :=
  ⟨"POST", "/signin", [("username", "John"), ("password", "password")], false, none, []⟩

/-- Request `POST /signin` with a wrong password in the JSON body. -/
def signInWrongPassword : Request :=
  ⟨"POST", "/signin", [], false, some ⟨"John", "letmein"⟩, []⟩

/-- Request `POST /signin?%` with a wrong password in the JSON body: the query string
does not parse. -/
def signInBadQueryWrongPassword : Request :=
  ⟨"POST", "/signin", [], true, some ⟨"John", "letmein"⟩, []⟩

/-- Request `GET /signin` with a wrong password in the JSON body, handed to
`signInHandler` directly. -/
def signInGetWrongPassword : Request :=
  ⟨"GET", "/signin", [], false, some ⟨"John", "letmein"⟩, []⟩

/-- Request `GET /signin` with an empty body, handed to `signInHandler` directly. -/
def signInGet : Request :=
  ⟨"GET", "/signin", [], false, none, []⟩

/-- Request `GET /accounts` carrying a session cookie whose status is not `logged-in`. -/
def accountsGuest : Request :=
  ⟨"GET", "/accounts", [], false, none, [("session", [("status", .str "guest")])]⟩

/-- Request `POST /fedcm_assertion_endpoint` carrying a logged-in session cookie. -/
def assertionLoggedIn : Request :=
  ⟨"POST", "/fedcm_assertion_endpoint", [], false, none,
    [("session", [("username", .str "John"), ("status", .str "logged-in")])]⟩

/-- Request `GET /metadata?client_id=1234`. -/
def metadataLongerId : Request :=
  ⟨"GET", "/metadata", [("client_id", "1234")], false, none, []⟩

/-- Request `GET /nowhere`. -/
def unknownPath : Request :=
  ⟨"GET", "/nowhere", [], false, none, []⟩

/-- The response is a JSON error: it went out with `Content-Type: application/json`
and its body is the marshalled object with the single member `error`. -/
def IsJSONError (w : ResponseWriter) : Prop :=
  w.sent.Get "Content-Type" = "application/json" ∧
  ∃ msg : String, Marshal (.map [("error", .str msg)]) = some w.body

/-! ## Auxiliary facts about maps and the writer -/

theorem find_filter_ne_none {β : Type} (l : List (String × β)) (key : String) :
    (l.filter (fun kv => kv.1 != key)).find? (fun kv => kv.1 == key) = none := by
  induction l with
  | nil => rfl
  | cons x xs ih =>
    cases hb : (x.1 == key)
    · have hn : (x.1 != key) = true := by simp [bne, hb]
      rw [List.filter_cons, if_pos hn, List.find?_cons, hb]
      exact ih
    · have hn : ¬ (x.1 != key) = true := by simp [bne, hb]
      rw [List.filter_cons, if_neg hn]
      exact ih

theorem find_filter_other {β : Type} (l : List (String × β)) (key other : String)
    (h : other ≠ key) :
    (l.filter (fun kv => kv.1 != key)).find? (fun kv => kv.1 == other)
      = l.find? (fun kv => kv.1 == other) := by
  induction l with
  | nil => rfl
  | cons x xs ih =>
    cases hb : (x.1 == key)
    · have hn : (x.1 != key) = true := by simp [bne, hb]
      rw [List.filter_cons, if_pos hn, List.find?_cons, List.find?_cons, ih]
    · have hn : ¬ (x.1 != key) = true := by simp [bne, hb]
      have hx : x.1 = key := by simpa using hb
      have ho : (x.1 == other) = false := by
        simp only [beq_eq_false_iff_ne, ne_eq, hx]
        exact fun e => h e.symm
      rw [List.filter_cons, if_neg hn, List.find?_cons, ho]
      exact ih

theorem Header.Get_Set_same (h : Header) (key value : String) :
    (h.Set key value).Get key = value := by
  simp only [Header.Get, Header.Set, List.find?_append, find_filter_ne_none]
  simp [List.find?_cons]

theorem Header.Get_Set_other (h : Header) (key value other : String) (hne : other ≠ key) :
    (h.Set key value).Get other = h.Get other := by
  have hk : ¬ key = other := fun e => hne e.symm
  simp only [Header.Get, Header.Set, List.find?_append, find_filter_other _ _ _ hne]
  cases h.fields.find? (fun kv => kv.1 == other) <;> simp [List.find?_cons, hk]

theorem index_assign_same (m : List (String × Value)) (key : String) (v : Value) :
    index (assign m key v) key = v := by
  simp only [index, assign, List.find?_append, find_filter_ne_none]
  simp [List.find?_cons]

theorem index_assign_other (m : List (String × Value)) (key other : String) (v : Value)
    (hne : other ≠ key) : index (assign m key v) other = index m other := by
  have hk : ¬ key = other := fun e => hne e.symm
  simp only [index, assign, List.find?_append, find_filter_other _ _ _ hne]
  cases m.find? (fun kv => kv.1 == other) <;> simp [List.find?_cons, hk]

theorem CookieStore.Get_name (store : CookieStore) (r : Request) (name : String) :
    (store.Get r name).name = name := by
  unfold CookieStore.Get
  split <;> rfl

/-- Effect of `jsonResponse` with a marshallable value on a writer that has not sent
its header. -/
theorem jsonResponse_ok (w : ResponseWriter) (d : Data) (c : Nat) (s : String)
    (hm : Marshal d = some s) (hw : w.wroteHeader = false) :
    jsonResponse w d c =
      { header := w.header.Set "Content-Type" "application/json",
        wroteHeader := true, status := c,
        sent := w.header.Set "Content-Type" "application/json",
        body := w.body ++ s,
        writeHeaderCalls := w.writeHeaderCalls ++ [c] } := by
  simp [jsonResponse, hm, ResponseWriter.setHeader, ResponseWriter.WriteHeader,
    ResponseWriter.Write, hw]

theorem jsonResponse_body (w : ResponseWriter) (d : Data) (c : Nat) (s : String)
    (hm : Marshal d = some s) : (jsonResponse w d c).body = w.body ++ s := by
  cases hw : w.wroteHeader <;>
  simp [jsonResponse, hm, ResponseWriter.setHeader, ResponseWriter.WriteHeader,
    ResponseWriter.Write, hw]

theorem jsonResponse_header_cookies (w : ResponseWriter) (d : Data) (c : Nat) :
    (jsonResponse w d c).header.cookies = w.header.cookies := by
  cases hm : Marshal d <;> cases hw : w.wroteHeader <;>
  simp [jsonResponse, hm, Error, ResponseWriter.setHeader, ResponseWriter.WriteHeader,
    ResponseWriter.Write, Header.Set, hw]

theorem jsonResponse_sent_cookies (w : ResponseWriter) (d : Data) (c : Nat) :
    (jsonResponse w d c).sent.cookies
      = if w.wroteHeader then w.sent.cookies else w.header.cookies := by
  cases hm : Marshal d <;> cases hw : w.wroteHeader <;>
  simp [jsonResponse, hm, Error, ResponseWriter.setHeader, ResponseWriter.WriteHeader,
    ResponseWriter.Write, Header.Set, hw]

theorem marshal_unauthorized :
    Marshal (.map [("error", .str "Unauthorized")])
      = some "\x7b\"error\":\"Unauthorized\"\x7d" := by decide

theorem marshal_accounts :
    Marshal (.map [("accounts", .list [.map [("id", .str "1234"), ("name", .str "John Doe"),
      ("email", .str "john_doe@idp.example")]])])
      = some "\x7b\"accounts\":[\x7b\"email\":\"john_doe@idp.example\",\"id\":\"1234\",\"name\":\"John Doe\"\x7d]\x7d" := by
  decide

theorem sessionCheck_allowed (store : CookieStore) (next : HandlerFunc) (w : ResponseWriter)
    (r : Request) (h : loadedStatus store r = .str "logged-in") :
    sessionCheckMiddleware store next w r = next w r := by
  unfold loadedStatus at h
  simp [sessionCheckMiddleware, h, Value.asString]

theorem sessionCheck_denied (store : CookieStore) (next : HandlerFunc) (w : ResponseWriter)
    (r : Request) (h : loadedStatus store r ≠ .str "logged-in") :
    sessionCheckMiddleware store next w r
      = jsonResponse w (.map [("error", .str "Unauthorized")]) 401 := by
  have key : ∀ (v : Value) (a b : ResponseWriter), v ≠ .str "logged-in" →
      (if v = Value.nil then a else if v.asString != "logged-in" then a else b) = a := by
    intro v a b hv
    cases v with
    | nil => simp
    | str s =>
      have hs : s ≠ "logged-in" := fun e => hv (by rw [e])
      simp [Value.asString, hs]
    | int n => simp [Value.asString]
    | bool b => simp [Value.asString]
  exact key _ _ _ h

theorem append_ne_self (a s : String) (hs : 0 < s.length) : a ++ s ≠ a := by
  intro e
  have hl := congrArg String.length e
  rw [String.length_append] at hl
  omega

/-! ## The claims -/

/-- C1: `sessionCheckMiddleware(next)` runs `next` exactly when the `status` of the
loaded session is the string `logged-in`; in every other case (absent, not a string, another
string) the result is the 401 JSON error response, which does not depend on `next`. -/
theorem sessionCheckMiddleware_gate (store : CookieStore) (w : ResponseWriter) (r : Request) :
    ((∀ next : HandlerFunc, sessionCheckMiddleware store next w r = next w r)
        ↔ loadedStatus store r = .str "logged-in") ∧
    (loadedStatus store r ≠ .str "logged-in" → ∀ next : HandlerFunc,
      sessionCheckMiddleware store next w r
          = jsonResponse w (.map [("error", .str "Unauthorized")]) 401 ∧
      (sessionCheckMiddleware store next w r).body
          = w.body ++ "\x7b\"error\":\"Unauthorized\"\x7d" ∧
      (w.wroteHeader = false →
        (sessionCheckMiddleware store next w r).status = 401 ∧
        (sessionCheckMiddleware store next w r).sent.Get "Content-Type"
          = "application/json")) := by
  refine ⟨⟨fun hall => ?_, fun h next => sessionCheck_allowed store next w r h⟩, ?_⟩
  · by_contra hne
    have h1 := hall (fun w _ => w)
    rw [sessionCheck_denied store _ w r hne] at h1
    have h2 := congrArg ResponseWriter.body h1
    rw [jsonResponse_body _ _ _ _ marshal_unauthorized] at h2
    exact append_ne_self _ _ (by decide) h2
  · intro hne next
    rw [sessionCheck_denied store next w r hne]
    refine ⟨rfl, jsonResponse_body _ _ _ _ marshal_unauthorized, fun hw => ?_⟩
    rw [jsonResponse_ok _ _ _ _ marshal_unauthorized hw]
    exact ⟨rfl, Header.Get_Set_same _ _ _⟩

/-- C1 at a request whose session cookie has status `guest`, wrapping
`accountsHandler`: the response is the 401 error. -/
theorem sessionCheckMiddleware_gate_witness :
    loadedStatus plainStore accountsGuest ≠ .str "logged-in" ∧
    (sessionCheckMiddleware plainStore accountsHandler newResponseWriter accountsGuest).status
      = 401 :=
  ⟨by decide,
   (((sessionCheckMiddleware_gate plainStore newResponseWriter accountsGuest).2
      (by decide) accountsHandler).2.2 rfl).1⟩

/-- The status `jsonResponse` fixes on a writer that has not sent its header. -/
theorem jsonResponse_status_fresh (w : ResponseWriter) (d : Data) (c : Nat) (s : String)
    (hs : Marshal d = some s) (hw : w.wroteHeader = false) :
    (jsonResponse w d c).status = c := by
  rw [jsonResponse_ok _ _ _ _ hs hw]

theorem marshal_error (msg : String) :
    ∃ s, Marshal (.map [("error", .str msg)]) = some s := ⟨_, rfl⟩

theorem marshal_message :
    Marshal (.map [("message", .str "success")])
      = some "\x7b\"message\":\"success\"\x7d" := by decide

theorem marshal_token :
    Marshal (.map [("token", .str "*****")]) = some "\x7b\"token\":\"*****\"\x7d" := by
  decide

theorem marshal_metadata :
    Marshal
      (.map [("privacy_policy_url", .str "http://localhost:8001/privacy_policy.html"),
             ("terms_of_service_url", .str "http://localhost:8001/terms_of_service.html")])
      = some "\x7b\"privacy_policy_url\":\"http://localhost:8001/privacy_policy.html\",\"terms_of_service_url\":\"http://localhost:8001/terms_of_service.html\"\x7d" := by
  decide

theorem marshal_provider :
    Marshal (.map [("provider_urls", .str "http://localhost:8002/config.json")])
      = some "\x7b\"provider_urls\":\"http://localhost:8002/config.json\"\x7d" := by
  decide

set_option maxRecDepth 8000 in
theorem marshal_config :
    Marshal (.map configDocument)
      = some "\x7b\"accounts_endpoint\":\"/accounts\",\"client_metadata_endpoint\":\"/metadata\",\"disconnect_endpoint\":\"/disconnect\",\"id_assertion_endpoint\":\"/fedcm_assertion_endpoint\",\"login_url\":\"/login\"\x7d" := by
  decide

/-- An `error` object written by `jsonResponse` to a fresh writer is a JSON error. -/
theorem jsonResponse_error_fresh (msg : String) (c : Nat) :
    IsJSONError (jsonResponse newResponseWriter (.map [("error", .str msg)]) c) := by
  obtain ⟨s, hs⟩ := marshal_error msg
  rw [jsonResponse_ok _ _ _ _ hs rfl]
  refine ⟨Header.Get_Set_same _ _ _, msg, ?_⟩
  rw [hs]
  simp [newResponseWriter]

/-- The accepted branch of `signInHandler` on a POST: save, then either the 500
response or the success response with the cookie set. -/
theorem signIn_post_accepted (store : CookieStore) (w : ResponseWriter) (r : Request)
    (hpost : r.Method = "POST") (hform : r.ParseFormErr = false)
    (hbody : r.Body = some ⟨"John", "password"⟩) :
    signInHandler store w r =
      if store.encodeErr (signInValues store r) then
        jsonResponse w (.map [("error", .str "Error saving session")]) 500
      else
        jsonResponse
          (({ w with header := { w.header with
              cookies := w.header.cookies ++ [("session", signInValues store r)] } }
            : ResponseWriter).setHeader "Set-Login" "logged-in")
          (.map [("message", .str "success")]) 200 := by
  cases hsave : store.encodeErr (signInValues store r) <;>
  · unfold signInValues at hsave
    simp [signInHandler, hpost, hform, hbody, Session.Save, hsave, signInValues,
      CookieStore.Get_name]

/-- The rejected branch of `signInHandler` on a POST. -/
theorem signIn_post_rejected (store : CookieStore) (w : ResponseWriter) (r : Request)
    (p : Params) (hpost : r.Method = "POST") (hform : r.ParseFormErr = false)
    (hbody : r.Body = some p) (hbad : ¬ (p.Username = "John" ∧ p.Password = "password")) :
    signInHandler store w r
      = jsonResponse w (.map [("error", .str "username or password incorrect")]) 401 := by
  have hcond : (p.Username != "John" || p.Password != "password") = true := by
    by_cases hu : p.Username = "John"
    · have hp : p.Password ≠ "password" := fun e => hbad ⟨hu, e⟩
      simp [hu, hp]
    · simp [hu]
  simp only [signInHandler, hform, hbody, hcond, hpost]
  simp

theorem signIn_post_error (store : CookieStore) (r : Request) (hpost : r.Method = "POST")
    (herr : 400 ≤ (signInHandler store newResponseWriter r).status) :
    IsJSONError (signInHandler store newResponseWriter r) := by
  cases hform : r.ParseFormErr
  · cases hbody : r.Body with
    | none =>
      have hrun : signInHandler store newResponseWriter r = jsonResponse newResponseWriter
          (.map [("error", .str "Error decoding JSON")]) 400 := by
        simp [signInHandler, hpost, hform, hbody]
      rw [hrun]
      exact jsonResponse_error_fresh _ _
    | some p =>
      by_cases hgood : p.Username = "John" ∧ p.Password = "password"
      · have hp : p = ⟨"John", "password"⟩ := by
          cases p
          simp only [Params.mk.injEq]
          exact hgood
        rw [hp] at hbody
        rw [signIn_post_accepted store _ r hpost hform hbody] at herr ⊢
        cases hsave : store.encodeErr (signInValues store r)
        · rw [hsave] at herr
          simp only [Bool.false_eq_true, if_false] at herr
          rw [jsonResponse_status_fresh _ _ _ _ marshal_message rfl] at herr
          omega
        · simp only [if_true]
          exact jsonResponse_error_fresh _ _
      · rw [signIn_post_rejected store _ r p hpost hform hbody hgood]
        exact jsonResponse_error_fresh _ _
  · have hrun : signInHandler store newResponseWriter r = jsonResponse newResponseWriter
        (.map [("error", .str "Error parsing form")]) 400 := by
      simp [signInHandler, hpost, hform]
    rw [hrun]
    exact jsonResponse_error_fresh _ _

theorem sessionCheck_error (store : CookieStore) (next : HandlerFunc) (r : Request)
    (hnext : ∀ r, (next newResponseWriter r).status = 200)
    (herr : 400 ≤ (sessionCheckMiddleware store next newResponseWriter r).status) :
    IsJSONError (sessionCheckMiddleware store next newResponseWriter r) := by
  by_cases h : loadedStatus store r = .str "logged-in"
  · rw [sessionCheck_allowed store next _ r h, hnext r] at herr
    omega
  · rw [sessionCheck_denied store next _ r h]
    exact jsonResponse_error_fresh _ _

theorem clientMetadata_error (r : Request)
    (herr : 400 ≤ (clientMetadataHandler newResponseWriter r).status) :
    IsJSONError (clientMetadataHandler newResponseWriter r) := by
  unfold clientMetadataHandler at herr ⊢
  by_cases h : r.FormValue "client_id" = "123"
  · simp only [h, bne_self_eq_false, Bool.false_eq_true, if_false] at herr
    rw [jsonResponse_status_fresh _ _ _ _ marshal_metadata rfl] at herr
    omega
  · have hb : (r.FormValue "client_id" != "123") = true := by simp [h]
    simp only [hb, if_true]
    exact jsonResponse_error_fresh _ _

/-- C2, as stated, fails at two POST requests that submit the valid credentials: one
carries them in the JSON body but has a query string that does not parse, and is
answered 400 by the form-parsing guard; the other carries them form-encoded, so the
JSON decoding of the body fails, and is answered 400 by the decoding guard. -/
theorem signIn_valid_credentials_form_error :
    signInBadQuery.Method = "POST" ∧
    signInBadQuery.Body = some ⟨"John", "password"⟩ ∧
    plainStore.encodeErr (signInValues plainStore signInBadQuery) = false ∧
    (signInHandler plainStore newResponseWriter signInBadQuery).status = 400 ∧
    (signInHandler plainStore newResponseWriter signInBadQuery).body
      = "\x7b\"error\":\"Error parsing form\"\x7d" ∧
    (signInHandler plainStore newResponseWriter signInBadQuery).sent.cookies = [] ∧
    signInFormEncoded.Method = "POST" ∧
    signInFormEncoded.ParseFormErr = false ∧
    formGet signInFormEncoded.Form "username" = "John" ∧
    formGet signInFormEncoded.Form "password" = "password" ∧
    plainStore.encodeErr (signInValues plainStore signInFormEncoded) = false ∧
    (signInHandler plainStore newResponseWriter signInFormEncoded).status = 400 ∧
    (signInHandler plainStore newResponseWriter signInFormEncoded).body
      = "\x7b\"error\":\"Error decoding JSON\"\x7d" ∧
    (signInHandler plainStore newResponseWriter signInFormEncoded).sent.cookies = [] := by
  decide

/-- C2 (amended): a POST to `signInHandler` whose form parses, whose JSON body decodes
to the credentials John/password and whose session save succeeds is answered 200 with body
`{"message":"success"}`, header `Set-Login: logged-in` and a session cookie whose
status is `logged-in`; a later request carrying that cookie passes
`sessionCheckMiddleware(accountsHandler)` with status 200 and the account list. -/
theorem signIn_success (store : CookieStore) (r : Request)
    (hmethod : r.Method = "POST") (hform : r.ParseFormErr = false)
    (hbody : r.Body = some ⟨"John", "password"⟩)
    (hsave : store.encodeErr (signInValues store r) = false) :
    (signInHandler store newResponseWriter r).status = 200 ∧
    (signInHandler store newResponseWriter r).body = "\x7b\"message\":\"success\"\x7d" ∧
    (signInHandler store newResponseWriter r).sent.Get "Set-Login" = "logged-in" ∧
    (signInHandler store newResponseWriter r).sent.Get "Content-Type" = "application/json" ∧
    (signInHandler store newResponseWriter r).sent.cookies
      = [("session", signInValues store r)] ∧
    index (signInValues store r) "status" = .str "logged-in" ∧
    ∀ r2 : Request,
      r2.Cookies = (signInHandler store newResponseWriter r).sent.cookies →
      (sessionCheckMiddleware store accountsHandler newResponseWriter r2).status = 200 ∧
      (sessionCheckMiddleware store accountsHandler newResponseWriter r2).body
        = "\x7b\"accounts\":[\x7b\"email\":\"john_doe@idp.example\",\"id\":\"1234\",\"name\":\"John Doe\"\x7d]\x7d" := by
  have hrun := signIn_post_accepted store newResponseWriter r hmethod hform hbody
  rw [hsave] at hrun
  simp only [Bool.false_eq_true, if_false] at hrun
  have hstatus : index (signInValues store r) "status" = .str "logged-in" :=
    index_assign_same _ _ _
  rw [hrun, jsonResponse_ok _ _ _ _ marshal_message rfl]
  refine ⟨rfl, rfl, ?_, ?_, rfl, hstatus, ?_⟩
  · show (Header.Set _ _ _).Get "Set-Login" = _
    rw [Header.Get_Set_other _ _ _ _ (by decide)]
    exact Header.Get_Set_same _ _ _
  · exact Header.Get_Set_same _ _ _
  · intro r2 hc
    have hload : loadedStatus store r2 = .str "logged-in" := by
      have hc2 : r2.Cookies = [("session", signInValues store r)] := hc
      simp [loadedStatus, CookieStore.Get, hc2, hstatus]
    rw [sessionCheck_allowed store _ _ _ hload]
    show (jsonResponse newResponseWriter _ 200).status = 200 ∧
      (jsonResponse newResponseWriter _ 200).body = _
    rw [jsonResponse_ok _ _ _ _ marshal_accounts rfl]
    exact ⟨rfl, rfl⟩

/-- C2 (amended) at the plain JSON sign-in. -/
theorem signIn_success_witness :
    signInJSONOnly.Method = "POST" ∧ signInJSONOnly.ParseFormErr = false ∧
    signInJSONOnly.Body = some ⟨"John", "password"⟩ ∧
    plainStore.encodeErr (signInValues plainStore signInJSONOnly) = false ∧
    (signInHandler plainStore newResponseWriter signInJSONOnly).status = 200 ∧
    (signInHandler plainStore newResponseWriter signInJSONOnly).body
      = "\x7b\"message\":\"success\"\x7d" :=
  ⟨rfl, rfl, rfl, rfl,
   (signIn_success plainStore signInJSONOnly rfl rfl rfl rfl).1,
   (signIn_success plainStore signInJSONOnly rfl rfl rfl rfl).2.1⟩

/-- C3, as stated, fails: with the wrong password in the JSON body, a POST whose query
string does not parse is answered 400 by the form-parsing guard, and a GET handed to
the handler is answered 405; neither response has status 401. -/
theorem signIn_wrong_credentials_not_401 :
    signInBadQueryWrongPassword.Body = some ⟨"John", "letmein"⟩ ∧
    (signInHandler plainStore newResponseWriter signInBadQueryWrongPassword).status = 400 ∧
    (signInHandler plainStore newResponseWriter signInBadQueryWrongPassword).body
      = "\x7b\"error\":\"Error parsing form\"\x7d" ∧
    signInGetWrongPassword.Body = some ⟨"John", "letmein"⟩ ∧
    (signInHandler plainStore newResponseWriter signInGetWrongPassword).status = 405 := by
  decide

/-- C3 (amended): when the credentials the JSON body decodes to are not exactly
John/password, `signInHandler` sets no cookie, for every method and whether or not the
form parses (so no session is saved or upgraded to logged-in); a POST whose form
parses is answered 401 with one fixed error body, whichever of the two fields is
wrong, and a POST whose form does not parse is answered 400 by the form-parsing
guard. -/
theorem signIn_wrong_credentials (store : CookieStore) (r : Request) (p : Params)
    (hbody : r.Body = some p)
    (hbad : ¬ (p.Username = "John" ∧ p.Password = "password")) :
    (signInHandler store newResponseWriter r).sent.cookies = [] ∧
    (signInHandler store newResponseWriter r).header.cookies = [] ∧
    (r.Method = "POST" → r.ParseFormErr = false →
      (signInHandler store newResponseWriter r).status = 401 ∧
      (signInHandler store newResponseWriter r).body
        = "\x7b\"error\":\"username or password incorrect\"\x7d" ∧
      (signInHandler store newResponseWriter r).sent.Get "Content-Type"
        = "application/json") ∧
    (r.Method = "POST" → r.ParseFormErr = true →
      (signInHandler store newResponseWriter r).status = 400 ∧
      (signInHandler store newResponseWriter r).body
        = "\x7b\"error\":\"Error parsing form\"\x7d" ∧
      (signInHandler store newResponseWriter r).sent.Get "Content-Type"
        = "application/json") := by
  have hm : Marshal (.map [("error", .str "username or password incorrect")])
      = some "\x7b\"error\":\"username or password incorrect\"\x7d" := by decide
  have hmf : Marshal (.map [("error", .str "Error parsing form")])
      = some "\x7b\"error\":\"Error parsing form\"\x7d" := by decide
  have hcond : (p.Username != "John" || p.Password != "password") = true := by
    by_cases hu : p.Username = "John"
    · have hp : p.Password ≠ "password" := fun e => hbad ⟨hu, e⟩
      simp [hu, hp]
    · simp [hu]
  have hrun : signInHandler store newResponseWriter r
      = if r.ParseFormErr then
          jsonResponse (signInMethodCheck newResponseWriter r)
            (.map [("error", .str "Error parsing form")]) 400
        else
          jsonResponse (signInMethodCheck newResponseWriter r)
            (.map [("error", .str "username or password incorrect")]) 401 := by
    simp only [signInHandler, signInMethodCheck, hbody, hcond]
    simp
  have hw0 : (signInMethodCheck newResponseWriter r).header.cookies = [] ∧
      (signInMethodCheck newResponseWriter r).sent.cookies = [] := by
    unfold signInMethodCheck
    split
    · exact ⟨by rw [jsonResponse_header_cookies]; rfl,
        by rw [jsonResponse_sent_cookies]; rfl⟩
    · exact ⟨rfl, rfl⟩
  have hcookies : ∀ (d : Data) (c : Nat),
      (jsonResponse (signInMethodCheck newResponseWriter r) d c).sent.cookies = [] ∧
      (jsonResponse (signInMethodCheck newResponseWriter r) d c).header.cookies = [] := by
    intro d c
    refine ⟨?_, by rw [jsonResponse_header_cookies]; exact hw0.1⟩
    rw [jsonResponse_sent_cookies]
    split
    · exact hw0.2
    · exact hw0.1
  have hpostw : r.Method = "POST" → signInMethodCheck newResponseWriter r = newResponseWriter := by
    intro hpost
    simp [signInMethodCheck, hpost]
  rw [hrun]
  refine ⟨?_, ?_, ?_, ?_⟩
  · split
    · exact (hcookies _ _).1
    · exact (hcookies _ _).1
  · split
    · exact (hcookies _ _).2
    · exact (hcookies _ _).2
  · intro hpost hform
    rw [hpostw hpost, hform]
    simp only [Bool.false_eq_true, if_false]
    rw [jsonResponse_ok _ _ _ _ hm rfl]
    exact ⟨rfl, rfl, Header.Get_Set_same _ _ _⟩
  · intro hpost hform
    rw [hpostw hpost, hform]
    simp only [if_true]
    rw [jsonResponse_ok _ _ _ _ hmf rfl]
    exact ⟨rfl, rfl, Header.Get_Set_same _ _ _⟩

/-- C3 (amended) at a POST with the right username and a wrong password. -/
theorem signIn_wrong_credentials_witness :
    signInWrongPassword.Body = some ⟨"John", "letmein"⟩ ∧
    ¬ ("John" = "John" ∧ "letmein" = "password") ∧
    (signInHandler plainStore newResponseWriter signInWrongPassword).sent.cookies = [] ∧
    (signInHandler plainStore newResponseWriter signInWrongPassword).status = 401 :=
  ⟨rfl, by decide,
   (signIn_wrong_credentials plainStore signInWrongPassword ⟨"John", "letmein"⟩
      rfl (by decide)).1,
   ((signIn_wrong_credentials plainStore signInWrongPassword ⟨"John", "letmein"⟩
      rfl (by decide)).2.2.1 rfl rfl).1⟩

/-- C4: `clientMetadataHandler` answers 200 with the fixed metadata exactly when
`client_id` is the string `123`; for every other value (missing, empty, a longer or
different string) it answers 400 with the error body and no metadata. -/
theorem clientMetadata_strict (r : Request) :
    (r.FormValue "client_id" = "123" →
      (clientMetadataHandler newResponseWriter r).status = 200 ∧
      (clientMetadataHandler newResponseWriter r).body
        = "\x7b\"privacy_policy_url\":\"http://localhost:8001/privacy_policy.html\",\"terms_of_service_url\":\"http://localhost:8001/terms_of_service.html\"\x7d") ∧
    (r.FormValue "client_id" ≠ "123" →
      (clientMetadataHandler newResponseWriter r).status = 400 ∧
      (clientMetadataHandler newResponseWriter r).body
        = "\x7b\"error\":\"invalid client_id.\"\x7d" ∧
      (clientMetadataHandler newResponseWriter r).sent.Get "Content-Type"
        = "application/json") := by
  have hm : Marshal (.map [("error", .str "invalid client_id.")])
      = some "\x7b\"error\":\"invalid client_id.\"\x7d" := by decide
  have hm2 : Marshal
      (.map [("privacy_policy_url", .str "http://localhost:8001/privacy_policy.html"),
             ("terms_of_service_url", .str "http://localhost:8001/terms_of_service.html")])
      = some "\x7b\"privacy_policy_url\":\"http://localhost:8001/privacy_policy.html\",\"terms_of_service_url\":\"http://localhost:8001/terms_of_service.html\"\x7d" := by
    decide
  constructor
  · intro h
    have hrun : clientMetadataHandler newResponseWriter r = jsonResponse newResponseWriter
        (.map [("privacy_policy_url", .str "http://localhost:8001/privacy_policy.html"),
          ("terms_of_service_url", .str "http://localhost:8001/terms_of_service.html")])
        200 := by
      simp [clientMetadataHandler, h]
    rw [hrun, jsonResponse_ok _ _ _ _ hm2 rfl]
    exact ⟨rfl, by decide⟩
  · intro h
    have hrun : clientMetadataHandler newResponseWriter r = jsonResponse newResponseWriter
        (.map [("error", .str "invalid client_id.")]) 400 := by
      simp [clientMetadataHandler, h]
    rw [hrun, jsonResponse_ok _ _ _ _ hm rfl]
    exact ⟨rfl, by decide, Header.Get_Set_same _ _ _⟩

/-- C4 at `client_id=1234`, which has `123` as a prefix: the answer is 400. -/
theorem clientMetadata_strict_witness :
    metadataLongerId.FormValue "client_id" ≠ "123" ∧
    (clientMetadataHandler newResponseWriter metadataLongerId).status = 400 ∧
    (clientMetadataHandler newResponseWriter metadataLongerId).body
      = "\x7b\"error\":\"invalid client_id.\"\x7d" :=
  ⟨by decide,
   ((clientMetadata_strict metadataLongerId).2 (by decide)).1,
   ((clientMetadata_strict metadataLongerId).2 (by decide)).2.1⟩

/-- C5, evaluated on the code: for every request `webIdentityHandler` answers 200 with
`provider_urls` a JSON string, not the one-element array the claim requires. -/
theorem webIdentity_provider_urls_is_string (r : Request) :
    (webIdentityHandler newResponseWriter r).status = 200 ∧
    (webIdentityHandler newResponseWriter r).body
      = "\x7b\"provider_urls\":\"http://localhost:8002/config.json\"\x7d" ∧
    (webIdentityHandler newResponseWriter r).body
      ≠ "\x7b\"provider_urls\":[\"http://localhost:8002/config.json\"]\x7d" := by
  have hm : Marshal (.map [("provider_urls", .str "http://localhost:8002/config.json")])
      = some "\x7b\"provider_urls\":\"http://localhost:8002/config.json\"\x7d" := by decide
  show (jsonResponse newResponseWriter _ 200).status = 200 ∧
    (jsonResponse newResponseWriter _ 200).body = _ ∧
    (jsonResponse newResponseWriter _ 200).body ≠ _
  rw [jsonResponse_ok _ _ _ _ hm rfl]
  exact ⟨rfl, rfl, by decide⟩

/-- C6: for a request whose session status is `logged-in`,
`sessionCheckMiddleware(fedcmAssertionHandler)` answers 200 with a `token` body,
`Access-Control-Allow-Origin` the fixed origin `http://localhost:8001` (not `*`, the
same for every request) and `Access-Control-Allow-Credentials: true`. -/
theorem fedcmAssertion_cors (store : CookieStore) (r : Request)
    (h : loadedStatus store r = .str "logged-in") :
    (sessionCheckMiddleware store fedcmAssertionHandler newResponseWriter r).status = 200 ∧
    (sessionCheckMiddleware store fedcmAssertionHandler newResponseWriter r).body
      = "\x7b\"token\":\"*****\"\x7d" ∧
    (sessionCheckMiddleware store fedcmAssertionHandler newResponseWriter r).sent.Get
      "Access-Control-Allow-Origin" = "http://localhost:8001" ∧
    (sessionCheckMiddleware store fedcmAssertionHandler newResponseWriter r).sent.Get
      "Access-Control-Allow-Origin" ≠ "*" ∧
    (sessionCheckMiddleware store fedcmAssertionHandler newResponseWriter r).sent.Get
      "Access-Control-Allow-Credentials" = "true" := by
  have hm : Marshal (.map [("token", .str "*****")])
      = some "\x7b\"token\":\"*****\"\x7d" := by decide
  rw [sessionCheck_allowed store _ _ _ h]
  show (jsonResponse _ _ 200).status = 200 ∧ (jsonResponse _ _ 200).body = _ ∧
    (jsonResponse _ _ 200).sent.Get _ = _ ∧ (jsonResponse _ _ 200).sent.Get _ ≠ _ ∧
    (jsonResponse _ _ 200).sent.Get _ = _
  rw [jsonResponse_ok _ _ _ _ hm rfl]
  exact ⟨rfl, rfl, by decide, by decide, by decide⟩

/-- C6 at a request carrying a logged-in session cookie. -/
theorem fedcmAssertion_cors_witness :
    loadedStatus plainStore assertionLoggedIn = .str "logged-in" ∧
    (sessionCheckMiddleware plainStore fedcmAssertionHandler newResponseWriter
      assertionLoggedIn).sent.Get "Access-Control-Allow-Origin" = "http://localhost:8001" :=
  ⟨by decide, (fedcmAssertion_cors plainStore assertionLoggedIn (by decide)).2.2.1⟩

/-- C7, as stated, fails: the config document lists `disconnect_endpoint` as
`/disconnect`, and no registered route has that path. -/
theorem config_disconnect_not_routed :
    ("disconnect_endpoint", Data.str "/disconnect") ∈ configDocument ∧
    ∀ (store : CookieStore) (parseFiles : String → Option Template),
      ∀ rt ∈ routes store parseFiles, rt.path ≠ "/disconnect" := by
  refine ⟨by simp [configDocument], ?_⟩
  intro store parseFiles rt hrt
  simp only [routes, List.mem_cons, List.mem_singleton, List.not_mem_nil, or_false] at hrt
  rcases hrt with h | h | h | h | h | h | h <;> rw [h] <;>
    first
      | (show "/login" ≠ "/disconnect"; decide)
      | (show "/signin" ≠ "/disconnect"; decide)
      | (show "/config.json" ≠ "/disconnect"; decide)
      | (show "/fedcm_assertion_endpoint" ≠ "/disconnect"; decide)
      | (show "/accounts" ≠ "/disconnect"; decide)
      | (show "/metadata" ≠ "/disconnect"; decide)
      | (show "/.well-known/web-identity" ≠ "/disconnect"; decide)

/-- C7 (amended): every endpoint path of the config document other than
`disconnect_endpoint` (accounts, client metadata, id assertion, login) is the path of
a route registered in `main`. -/
theorem config_paths_routed (store : CookieStore) (parseFiles : String → Option Template)
    (name : String) (d : Data) (hmem : (name, d) ∈ configDocument)
    (hname : name ≠ "disconnect_endpoint") :
    ∃ rt ∈ routes store parseFiles, d = .str rt.path := by
  simp only [configDocument, List.mem_cons, List.mem_singleton, List.not_mem_nil, or_false,
    Prod.mk.injEq] at hmem
  rcases hmem with ⟨_, hd⟩ | ⟨_, hd⟩ | ⟨_, hd⟩ | ⟨hn, _⟩ | ⟨_, hd⟩
  · exact ⟨⟨"/accounts", ["GET"], sessionCheckMiddleware store accountsHandler⟩,
      by simp [routes], hd⟩
  · exact ⟨⟨"/metadata", ["GET"], clientMetadataHandler⟩, by simp [routes], hd⟩
  · exact ⟨⟨"/fedcm_assertion_endpoint", ["POST"],
      sessionCheckMiddleware store fedcmAssertionHandler⟩, by simp [routes], hd⟩
  · exact absurd hn hname
  · exact ⟨⟨"/login", ["GET"], loginHandler parseFiles⟩, by simp [routes], hd⟩

/-- C7 (amended) at the accounts endpoint. -/
theorem config_paths_routed_witness :
    ("accounts_endpoint", Data.str "/accounts") ∈ configDocument ∧
    ∃ rt ∈ routes plainStore noTemplates, Data.str "/accounts" = .str rt.path :=
  ⟨by simp [configDocument],
   config_paths_routed plainStore noTemplates "accounts_endpoint" (.str "/accounts")
     (by simp [configDocument]) (by decide)⟩

/-- C8, evaluated on the code: after an accepted sign-in (validated username `John`)
the saved session holds the `username` form field, not the validated username: the
empty string when the request has no such field, `Mallory` when the query says so. -/
theorem signIn_saves_form_username :
    (signInHandler plainStore newResponseWriter signInJSONOnly).status = 200 ∧
    (signInHandler plainStore newResponseWriter signInJSONOnly).sent.cookies
      = [("session", [("username", .str ""), ("status", .str "logged-in")])] ∧
    (signInHandler plainStore newResponseWriter signInOtherName).status = 200 ∧
    (signInHandler plainStore newResponseWriter signInOtherName).sent.cookies
      = [("session", [("username", .str "Mallory"), ("status", .str "logged-in")])] := by
  decide

/-- C9, evaluated on the code: for a GET handed to `signInHandler` the 405 response
is followed by a second response: `WriteHeader` is called twice and a second JSON
document is appended to the body. -/
theorem signIn_get_writes_twice :
    (signInHandler plainStore newResponseWriter signInGet).status = 405 ∧
    (signInHandler plainStore newResponseWriter signInGet).writeHeaderCalls = [405, 400] ∧
    (signInHandler plainStore newResponseWriter signInGet).body
      = "\x7b\"error\":\"Method not allowed\"\x7d\x7b\"error\":\"Error decoding JSON\"\x7d" := by
  decide

/-- C10, as stated, fails: the not-found handler and the template failure path answer
through `http.Error`, with a plain-text content type and a plain-text body. -/
theorem error_responses_not_all_json :
    (notFoundHandler newResponseWriter unknownPath).status = 404 ∧
    (notFoundHandler newResponseWriter unknownPath).sent.Get "Content-Type"
      = "text/plain; charset=utf-8" ∧
    (notFoundHandler newResponseWriter unknownPath).body = "Not found\n" ∧
    (loginHandler noTemplates newResponseWriter unknownPath).status = 500 ∧
    (loginHandler noTemplates newResponseWriter unknownPath).sent.Get "Content-Type"
      = "text/plain; charset=utf-8" ∧
    (loginHandler noTemplates newResponseWriter unknownPath).body
      = "Template parsing error\n" := by
  decide

/-- C10 (amended): every error response (status 400 or above) that a registered route
other than `/login` gives to a request of a method the route is registered for has
`Content-Type: application/json` and a body that is the JSON object with the single
member `error`. -/
theorem json_error_responses (store : CookieStore) (parseFiles : String → Option Template)
    (rt : Route) (hrt : rt ∈ routes store parseFiles) (hlogin : rt.path ≠ "/login")
    (r : Request) (hmethod : r.Method ∈ rt.methods)
    (herr : 400 ≤ (rt.handler newResponseWriter r).status) :
    IsJSONError (rt.handler newResponseWriter r) := by
  simp only [routes, List.mem_cons, List.mem_singleton, List.not_mem_nil, or_false] at hrt
  rcases hrt with h | h | h | h | h | h | h <;> subst h
  · exact absurd rfl hlogin
  · have hpost : r.Method = "POST" := by simpa using hmethod
    exact signIn_post_error store r hpost herr
  · have hs : (configJSONHandler newResponseWriter r).status = 200 :=
      jsonResponse_status_fresh _ _ _ _ marshal_config rfl
    have herr2 : 400 ≤ (configJSONHandler newResponseWriter r).status := herr
    omega
  · exact sessionCheck_error store fedcmAssertionHandler r
      (fun _ => jsonResponse_status_fresh _ _ _ _ marshal_token rfl) herr
  · exact sessionCheck_error store accountsHandler r
      (fun _ => jsonResponse_status_fresh _ _ _ _ marshal_accounts rfl) herr
  · exact clientMetadata_error r herr
  · have hs : (webIdentityHandler newResponseWriter r).status = 200 :=
      jsonResponse_status_fresh _ _ _ _ marshal_provider rfl
    have herr2 : 400 ≤ (webIdentityHandler newResponseWriter r).status := herr
    omega

/-- C10 (amended) at an unauthenticated request to `/accounts`. -/
theorem json_error_responses_witness :
    (⟨"/accounts", ["GET"], sessionCheckMiddleware plainStore accountsHandler⟩ : Route)
      ∈ routes plainStore noTemplates ∧
    IsJSONError (sessionCheckMiddleware plainStore accountsHandler newResponseWriter
      accountsGuest) :=
  ⟨by simp [routes],
   json_error_responses plainStore noTemplates
     ⟨"/accounts", ["GET"], sessionCheckMiddleware plainStore accountsHandler⟩
     (by simp [routes]) (by decide) accountsGuest (by decide) (by decide)⟩

end Idp
